import Mathlib

/-!
Shallow embedding of the FocusWave WhatsApp bridge server.

The repository contains several near-duplicate variants of the same bridge:
`src/index.js` (Baileys socket, operator `/restart` and `/disconnect`),
`src/unnamed/part_000` (Baileys variant whose close handler dispatches on the
disconnect cause and whose `/restart` does not clear the user info),
the second document inside `src/server.js` (Baileys variant whose `/chats`
truncates to 50 groups), and the "server (4).js" document inside
`src/unnamed/part_002` (Baileys variant with a bounded reconnect-attempt
budget `MAX_RECONNECT_ATTEMPTS = 5`).

Modelling conventions, uniform across the variants:
* the module-level mutable variables (`sock`, `qrCode`/`currentQR`,
  `connectionStatus`/`isConnected`, `userInfo`/`connectionInfo`, the auth
  folder on disk, `reconnectAttempts`) become fields of a state record;
* each branch of the `connection.update` event handler and each Express
  route handler becomes a Lean function on that record, translated
  line by line; each handler invocation is one atomic step;
* `setTimeout(connectWhatsApp, d)` is recorded by appending the delay `d`
  to a `scheduled` log (the sources never call `clearTimeout`, so the log
  only grows); the dedicated `Sessions` model additionally counts pending
  timers and live socket objects for the resource claims;
* `QRCode.toDataURL` is a fallible render: the event carries a flag saying
  whether rendering succeeded, and `render` models the produced data URL;
* Baileys `DisconnectReason` codes are the literal numeric values the
  library defines, since the JS compares `statusCode` against them.
-/

namespace FW

/-- Baileys `DisconnectReason.loggedOut` (numeric value 401). -/
def DR_loggedOut : Nat := 401

/-- Baileys `DisconnectReason.connectionClosed` (numeric value 428). -/
def DR_connectionClosed : Nat := 428

/-- Baileys `DisconnectReason.connectionLost` (numeric value 408). -/
def DR_connectionLost : Nat := 408

/-- Baileys `DisconnectReason.timedOut` (numeric value 408, same as
`connectionLost` in the library). -/
def DR_timedOut : Nat := 408

/-- Baileys `DisconnectReason.badSession` (numeric value 500). -/
def DR_badSession : Nat := 500

/-- Baileys `DisconnectReason.restartRequired` (numeric value 515). -/
def DR_restartRequired : Nat := 515

/-- The `userInfo` object built in the `connection === open` branch of
`src/index.js` and `src/unnamed/part_000`. -/
structure UserInfo where
  name : String
  id : String
deriving DecidableEq, Repr

/-- Model of `QRCode.toDataURL` on a successful render: an opaque injective
encoding of the raw pairing code into a data URL. -/
def render (code : String) : String :=
  "data:image/png;base64," ++ code

/-- `sock.user?.name || 'Unknown'` from the open branch. -/
def displayName (n : Option String) : String :=
  n.getD "Unknown"

/-- `sock.user?.id?.split(':')[0] || 'Unknown'` from the open branch: the
first element of a split at a colon is the prefix of characters before the
first colon. -/
def accountId (i : Option String) : String :=
  match i with
  | none => "Unknown"
  | some s =>
    let h := String.mk (s.data.takeWhile (fun ch => ch != ':'))
    if h = "" then "Unknown" else h

/-- Shared state record for the Baileys variants `src/index.js` and
`src/unnamed/part_000` (their module-level variables have the same shape).
`sock` is whether the module-level `sock` variable is non-null, `creds`
whether stored session credentials exist on disk (the auth folder), and
`scheduled` the log of `setTimeout(connectWhatsApp, d)` delays issued so
far (the sources contain no `clearTimeout`). -/
structure BSt where
  sock : Bool
  qrCode : Option String
  connectionStatus : String
  userInfo : Option UserInfo
  creds : Bool
  scheduled : List Nat
deriving DecidableEq, Repr

/-- Lifecycle events and operator requests processed by the bridge.
`startOk`/`startFail` are an invocation of `connectWhatsApp` that
respectively reaches the socket-construction point or throws in its try
block; `qr`, `opened`, `closed` are the branches of the
`connection.update` handler (`renderOk` says whether `QRCode.toDataURL`
succeeded); `disconnect` and `restart` are the operator POST routes
(`logoutErr` is the error message when `sock.logout()` rejects). -/
inductive Ev where
  | startOk
  | startFail
  | qr (code : String) (renderOk : Bool)
  | opened (name acct : Option String)
  | closed (statusCode : Option Nat)
  | disconnect (logoutErr : Option String)
  | restart
deriving DecidableEq, Repr

/-- Response of the `POST /disconnect` route. `success`/`message` model the
JSON keys of the success bodies; `errorMsg` the `error` key of the 500
body. -/
structure DiscResp where
  httpStatus : Nat
  success : Bool
  message : Option String
  errorMsg : Option String
deriving DecidableEq, Repr

/-- `POST /disconnect` of `src/index.js` (lines 217-231); the handler in
`src/unnamed/part_000` (lines 215-229) is textually identical. Returns the
response together with the state after the handler ran. -/
def disconnectHandler (s : BSt) (logoutErr : Option String) : DiscResp × BSt :=
  if s.sock = false then
    ({ httpStatus := 200, success := true,
       message := some "Already disconnected", errorMsg := none }, s)
  else
    match logoutErr with
    | none =>
      ({ httpStatus := 200, success := true,
         message := some "Logged out successfully", errorMsg := none },
       { s with connectionStatus := "disconnected", qrCode := none,
                userInfo := none })
    | some m =>
      ({ httpStatus := 500, success := false, message := none,
         errorMsg := some m }, s)

namespace IndexJs

/-- One atomic step of `src/index.js`: the `connection.update` branches
(lines 69-119), `connectWhatsApp` entry/failure (lines 34-46 and 124-128),
`clearAuthState` (lines 131-140), `POST /disconnect` (217-231) and
`POST /restart` (234-244). -/
def step (s : BSt) : Ev → BSt
  | .startOk =>
    { s with connectionStatus := "connecting", qrCode := none, sock := true }
  | .startFail =>
    { s with connectionStatus := "error", qrCode := none,
             scheduled := s.scheduled ++ [5000] }
  | .qr code renderOk =>
    if renderOk then
      { s with connectionStatus := "waiting_for_scan",
               qrCode := some (render code) }
    else
      { s with connectionStatus := "waiting_for_scan" }
  | .opened n i =>
    { s with connectionStatus := "connected", qrCode := none,
             userInfo := some { name := displayName n, id := accountId i } }
  | .closed c =>
    let s1 := { s with connectionStatus := "disconnected", qrCode := none,
                       userInfo := none }
    if c = some DR_loggedOut then
      { s1 with creds := false }
    else
      { s1 with scheduled := s1.scheduled ++ [5000] }
  | .disconnect e => (disconnectHandler s e).2
  | .restart =>
    { s with connectionStatus := "disconnected", qrCode := none,
             userInfo := none, scheduled := s.scheduled ++ [500] }

/-- Fold `step` over an event sequence. -/
def run (s : BSt) (evs : List Ev) : BSt :=
  evs.foldl step s

/-- Initial module state of `src/index.js` (lines 28-31); the process boots
with no credentials stored. -/
def init : BSt :=
  { sock := false, qrCode := none, connectionStatus := "initializing",
    userInfo := none, creds := false, scheduled := [] }

/-- Group record as consumed from `sock.groupFetchAllParticipating()`. -/
structure Group where
  id : String
  subject : Option String
  participants : Option Nat
  creation : Nat
  desc : Option String
deriving DecidableEq, Repr

/-- Chat entry built by `GET /chats` of `src/index.js` (lines 198-204). -/
structure Chat where
  id : String
  name : String
  participants : Nat
  creation : Nat
  desc : String
deriving DecidableEq, Repr

/-- The per-group mapping of `GET /chats` in `src/index.js`. -/
def formatChat (g : Group) : Chat :=
  { id := g.id, name := g.subject.getD "Unknown Group",
    participants := g.participants.getD 0, creation := g.creation,
    desc := g.desc.getD "" }

/-- Response of `GET /chats` in `src/index.js`. `stateEcho` is the `status`
key echoed in the 503 body; `sockCalled` records whether the handler
invoked `sock.groupFetchAllParticipating()`. -/
structure ChatsResp where
  httpStatus : Nat
  errorMsg : Option String
  stateEcho : Option String
  count : Option Nat
  chats : Option (List Chat)
  sockCalled : Bool
deriving DecidableEq, Repr

/-- `GET /chats` of `src/index.js` (lines 188-214), with the fetched group
list passed in as the value the socket would return. -/
def chatsHandler (s : BSt) (groups : List Group) : ChatsResp :=
  if s.connectionStatus ≠ "connected" ∨ s.sock = false then
    { httpStatus := 503, errorMsg := some "Not connected",
      stateEcho := some s.connectionStatus, count := none, chats := none,
      sockCalled := false }
  else
    let l := groups.map formatChat
    { httpStatus := 200, errorMsg := none, stateEcho := none,
      count := some l.length, chats := some l, sockCalled := true }

end IndexJs

namespace Part000

/-- One atomic step of `src/unnamed/part_000`: its `connection.update`
branches (lines 72-127) dispatch the close on the cause (loggedOut purges
and schedules in 2s, restartRequired schedules in 1s, any other cause that
is not `connectionClosed` schedules in 3s, and `connectionClosed` schedules
nothing); its `POST /restart` (lines 232-241) clears the status and the QR
but not `userInfo`. -/
def step (s : BSt) : Ev → BSt
  | .startOk =>
    { s with connectionStatus := "connecting", qrCode := none, sock := true }
  | .startFail =>
    { s with connectionStatus := "error", qrCode := none,
             scheduled := s.scheduled ++ [5000] }
  | .qr code renderOk =>
    if renderOk then
      { s with connectionStatus := "waiting_for_scan",
               qrCode := some (render code) }
    else
      { s with connectionStatus := "waiting_for_scan" }
  | .opened n i =>
    { s with connectionStatus := "connected", qrCode := none,
             userInfo := some { name := displayName n, id := accountId i } }
  | .closed c =>
    let s1 := { s with connectionStatus := "disconnected", qrCode := none,
                       userInfo := none }
    if c = some DR_loggedOut then
      { s1 with creds := false, scheduled := s1.scheduled ++ [2000] }
    else if c = some DR_restartRequired then
      { s1 with scheduled := s1.scheduled ++ [1000] }
    else if c ≠ some DR_connectionClosed then
      { s1 with scheduled := s1.scheduled ++ [3000] }
    else
      s1
  | .disconnect e => (disconnectHandler s e).2
  | .restart =>
    { s with connectionStatus := "disconnected", qrCode := none,
             scheduled := s.scheduled ++ [500] }

/-- Fold `step` over an event sequence. -/
def run (s : BSt) (evs : List Ev) : BSt :=
  evs.foldl step s

/-- Initial module state of `src/unnamed/part_000` (lines 35-38). -/
def init : BSt :=
  { sock := false, qrCode := none, connectionStatus := "disconnected",
    userInfo := none, creds := false, scheduled := [] }

end Part000

namespace ServerJs

/-- Module state of the Baileys document in `src/server.js` (lines 272-276
of the concatenated file) restricted to what its `GET /chats` route reads. -/
structure St where
  isConnected : Bool
  sock : Bool
  currentQR : Option String
deriving DecidableEq, Repr

/-- Group record as consumed from `sock.groupFetchAllParticipating()`. -/
structure Group where
  id : String
  subject : Option String
  participants : Option Nat
deriving DecidableEq, Repr

/-- Chat entry built by `GET /chats` of the `src/server.js` Baileys
document (lines 371-377). -/
structure Chat where
  id : String
  name : String
  isGroup : Bool
  participants : Nat
  messages : List String
deriving DecidableEq, Repr

/-- The per-group mapping of `GET /chats` in the `src/server.js` Baileys
document. -/
def formatChat (g : Group) : Chat :=
  { id := g.id, name := g.subject.getD "Unknown", isGroup := true,
    participants := g.participants.getD 0, messages := [] }

/-- Response of `GET /chats` in the `src/server.js` Baileys document; its
503 body is only the `error` key, with no state information. `sockCalled`
records whether the handler invoked the socket. -/
structure ChatsResp where
  httpStatus : Nat
  errorMsg : Option String
  chats : Option (List Chat)
  sockCalled : Bool
deriving DecidableEq, Repr

/-- `GET /chats` of the `src/server.js` Baileys document (lines 364-382):
precondition check, then `Object.values(groups).slice(0, 50).map(...)`.
The handler in `src/unnamed/part_002` "server (4).js" (lines 287-305) is
textually identical. -/
def chatsHandler (s : St) (groups : List Group) : ChatsResp :=
  if s.isConnected = false ∨ s.sock = false then
    { httpStatus := 503, errorMsg := some "Not connected", chats := none,
      sockCalled := false }
  else
    { httpStatus := 200, errorMsg := none,
      chats := some ((groups.take 50).map formatChat), sockCalled := true }

end ServerJs

namespace Part002

/-- `MAX_RECONNECT_ATTEMPTS` of "server (4).js" in `src/unnamed/part_002`
(line 130). -/
def MAX_RECONNECT_ATTEMPTS : Nat := 5

/-- Backoff delay of the transient branch:
`setTimeout(connectToWhatsApp, 3000 * reconnectAttempts)`. -/
def backoff (k : Nat) : Nat := 3000 * k

/-- Module state of "server (4).js" in `src/unnamed/part_002` restricted to
the fields its `connection.update` handler mutates (`connectionInfo` and
`initError` are omitted as no modelled claim concerns them).
`sessionExists` is whether the `./whatsapp-session` folder exists; `timers`
logs each `setTimeout` of `connectToWhatsApp` as a pair of the delay and
the `forceNew` flag passed. -/
structure St where
  reconnectAttempts : Nat
  sessionExists : Bool
  isConnected : Bool
  currentQR : Option String
  isInit : Bool
  timers : List (Nat × Bool)
deriving DecidableEq, Repr

/-- The `connection === close` branch of "server (4).js" in
`src/unnamed/part_002` (lines 186-220): loggedOut and badSession purge and
restart fresh in 3s; connectionClosed, connectionLost, timedOut and an
undefined status code increment `reconnectAttempts` and either back off
(`3000 * reconnectAttempts`, while the count stays within the budget) or
purge, reset the count and restart fresh in 5s; any other cause retries in
5s without touching the count. -/
def closeStep (s : St) (c : Option Nat) : St :=
  let s1 := { s with isConnected := false, currentQR := none }
  if c = some DR_loggedOut then
    { s1 with sessionExists := false, timers := s1.timers ++ [(3000, true)] }
  else if c = some DR_badSession then
    { s1 with sessionExists := false, timers := s1.timers ++ [(3000, true)] }
  else if c = some DR_connectionClosed ∨ c = some DR_connectionLost ∨
          c = some DR_timedOut ∨ c = none then
    let a := s1.reconnectAttempts + 1
    if a ≤ MAX_RECONNECT_ATTEMPTS then
      { s1 with reconnectAttempts := a,
                timers := s1.timers ++ [(backoff a, false)] }
    else
      { s1 with sessionExists := false, reconnectAttempts := 0,
                timers := s1.timers ++ [(5000, true)] }
  else
    { s1 with timers := s1.timers ++ [(5000, false)] }

/-- The `qr` branch of the same handler (lines 174-184): marks the server
as no longer starting up, resets the attempt budget, and stores the
rendered code when rendering succeeds. -/
def qrStep (s : St) (code : String) (renderOk : Bool) : St :=
  let s1 := { s with isInit := false, reconnectAttempts := 0 }
  if renderOk then { s1 with currentQR := some (render code) } else s1

/-- The `connection === open` branch of the same handler (lines 221-233). -/
def openStep (s : St) : St :=
  { s with isConnected := true, isInit := false, currentQR := none,
           reconnectAttempts := 0 }

/-- The disconnect causes routed to the attempt-counting branch of
`closeStep`: `connectionClosed` (428), `connectionLost`/`timedOut` (both
408) and an unclassifiable (undefined) status code. -/
def isTransient (c : Option Nat) : Prop :=
  c = some DR_connectionClosed ∨ c = some DR_connectionLost ∨ c = none

instance (c : Option Nat) : Decidable (isTransient c) := by
  unfold isTransient
  infer_instance

end Part002

namespace Sessions

/-- Resource view of `src/index.js`: `live` holds the ids of socket objects
created by `connectWhatsApp` and not yet ended, `tracked` the id stored in
the module-level `sock` variable, and `timers` the number of pending
`setTimeout(connectWhatsApp, _)` callbacks. -/
structure St where
  nextId : Nat
  live : List Nat
  tracked : Option Nat
  timers : Nat
deriving DecidableEq, Repr

/-- The two operations the resource claims concern: `POST /restart`
(lines 234-244 of `src/index.js`: best-effort `sock.end()` on the tracked
socket, then `setTimeout(connectWhatsApp, 500)`), and the firing of one
pending timer (running `connectWhatsApp`, which constructs a fresh socket
and overwrites the `sock` variable without ending the previous one). -/
inductive Op where
  | restart
  | fire
deriving DecidableEq, Repr

/-- One step of the resource view. The sources contain no `clearTimeout`,
so `restart` only adds a timer; `fire` consumes one timer and creates a
live socket. -/
def step (s : St) : Op → St
  | .restart =>
    let live1 :=
      match s.tracked with
      | some i => s.live.erase i
      | none => s.live
    { s with live := live1, timers := s.timers + 1 }
  | .fire =>
    if s.timers = 0 then s
    else
      { nextId := s.nextId + 1, live := s.nextId :: s.live,
        tracked := some s.nextId, timers := s.timers - 1 }

/-- Fold `step` over an operation sequence. -/
def run (s : St) (ops : List Op) : St :=
  ops.foldl step s

/-- Quiescent start: no sockets, no timers. -/
def init : St :=
  { nextId := 0, live := [], tracked := none, timers := 0 }

end Sessions

/-- The pairing-artifact invariant claimed by the spec for `src/index.js`:
`qrCode` is non-null exactly when the status is `waiting_for_scan`. -/
def qrInv (s : BSt) : Prop :=
  s.qrCode ≠ none ↔ s.connectionStatus = "waiting_for_scan"

instance (s : BSt) : Decidable (qrInv s) := by
  unfold qrInv
  infer_instance

/-- Whether an event's QR rendering (if any) succeeded. -/
def renderOkEv : Ev → Bool
  | .qr _ renderOk => renderOk
  | _ => true

/-- Example state: connected with a logged-in user and a tracked socket. -/
def exConnected : BSt :=
  { sock := true, qrCode := none, connectionStatus := "connected",
    userInfo := some { name := "Alice", id := "15551234567" }, creds := true,
    scheduled := [] }

/-- Example state: no socket tracked. -/
def exNoSock : BSt :=
  { sock := false, qrCode := none, connectionStatus := "disconnected",
    userInfo := none, creds := false, scheduled := [] }

/-- Example state for the attempt-budget variant: the retry budget has just
been used up. -/
def p2exFull : Part002.St :=
  { reconnectAttempts := 5, sessionExists := true, isConnected := true,
    currentQR := none, isInit := false, timers := [] }

/-- Example state for the attempt-budget variant: fresh counter. -/
def p2exFresh : Part002.St :=
  { reconnectAttempts := 0, sessionExists := true, isConnected := false,
    currentQR := none, isInit := false, timers := [] }

/-- Example resource state: one pending timer and one tracked live socket. -/
def sessEx : Sessions.St :=
  { nextId := 3, live := [2], tracked := some 2, timers := 1 }

/-- Example `src/server.js` state: disconnected while a QR is on offer. -/
def srvScanning : ServerJs.St :=
  { isConnected := false, sock := true, currentQR := some "Q" }

/-- Example `src/server.js` state: disconnected with no QR and no socket. -/
def srvIdle : ServerJs.St :=
  { isConnected := false, sock := false, currentQR := none }

/-- Example `src/server.js` state: connected. -/
def srvConn : ServerJs.St :=
  { isConnected := true, sock := true, currentQR := none }

/-- Example group for the 50-entry cap. -/
def gEx : ServerJs.Group :=
  { id := "g", subject := some "G", participants := some 3 }

/-- Every single step of `src/index.js` whose QR rendering (if any)
succeeded preserves the pairing-artifact invariant. -/
theorem indexStep_preserves_qrInv (s : BSt) (e : Ev)
    (he : renderOkEv e = true) (h : qrInv s) : qrInv (IndexJs.step s e) := by
  cases e with
  | startOk => simp [IndexJs.step, qrInv]
  | startFail => simp [IndexJs.step, qrInv]
  | qr code renderOk =>
      simp only [renderOkEv] at he
      subst he
      simp [IndexJs.step, qrInv]
  | opened n i => simp [IndexJs.step, qrInv]
  | closed c =>
      by_cases hc : c = some DR_loggedOut <;> simp [IndexJs.step, qrInv, hc]
  | disconnect e =>
      by_cases hs : s.sock = false
      · simpa [IndexJs.step, disconnectHandler, hs] using h
      · cases e with
        | none => simp [IndexJs.step, disconnectHandler, hs, qrInv]
        | some m => simpa [IndexJs.step, disconnectHandler, hs, qrInv] using h
  | restart => simp [IndexJs.step, qrInv]

/-- The invariant propagates along any run of render-successful events. -/
theorem indexRun_preserves_qrInv :
    ∀ (evs : List Ev) (s : BSt), (∀ e ∈ evs, renderOkEv e = true) →
      qrInv s → qrInv (IndexJs.run s evs) := by
  intro evs
  induction evs with
  | nil => intro s _ h; exact h
  | cons e t ih =>
      intro s hall h
      exact ih _ (fun x hx => hall x (List.mem_cons_of_mem _ hx))
        (indexStep_preserves_qrInv s e (hall e (List.mem_cons_self e t)) h)

/-- C1 (amended): in `src/index.js`, provided every `QRCode.toDataURL`
rendering succeeds, after any sequence of lifecycle events and operator
requests the `qrCode` artifact is non-null exactly when `connectionStatus`
is `waiting_for_scan`; in particular every transition out of
`waiting_for_scan` clears the artifact. (The unamended claim fails when a
rendering fails, see the counterexample.) -/
theorem c1_qr_iff_awaiting (evs : List Ev)
    (h : ∀ e ∈ evs, renderOkEv e = true) :
    qrInv (IndexJs.run IndexJs.init evs) :=
  indexRun_preserves_qrInv evs IndexJs.init h (by decide)

/-- C1 witness: a concrete render-successful run reaching
`waiting_for_scan` satisfies the invariant. -/
theorem c1_qr_iff_awaiting_witness :
    (∀ e ∈ [Ev.startOk, Ev.qr "ABC" true], renderOkEv e = true) ∧
    qrInv (IndexJs.run IndexJs.init [Ev.startOk, Ev.qr "ABC" true]) :=
  ⟨by decide, c1_qr_iff_awaiting [Ev.startOk, Ev.qr "ABC" true] (by decide)⟩

/-- C1 counterexample: when the QR rendering fails (the explicit catch in
lines 78-82 of `src/index.js`), the state still moves to
`waiting_for_scan` while the artifact stays null, so the claimed
equivalence is violated at an observable instant. -/
theorem c1_render_failure_breaks_iff :
    (IndexJs.run IndexJs.init [Ev.startOk, Ev.qr "ABC" false]).connectionStatus
        = "waiting_for_scan" ∧
    (IndexJs.run IndexJs.init [Ev.startOk, Ev.qr "ABC" false]).qrCode = none :=
  ⟨rfl, rfl⟩

/-- C2 (amended): in `src/unnamed/part_000` the connection info is set from
the identity by the `opened` event, and cleared (with the status leaving
`connected`) by every `closed` event and by a successful operator
disconnect with an active socket; but the operator `restart` route leaves
`userInfo` untouched, so the claimed equivalence does not survive a
restart issued while connected. -/
theorem c2_info_set_and_cleared (s : BSt) (n i : Option String)
    (c : Option Nat) :
    ((Part000.step s (Ev.opened n i)).userInfo
        = some { name := displayName n, id := accountId i } ∧
      (Part000.step s (Ev.opened n i)).connectionStatus = "connected") ∧
    ((Part000.step s (Ev.closed c)).userInfo = none ∧
      (Part000.step s (Ev.closed c)).connectionStatus = "disconnected") ∧
    (s.sock = true → (Part000.step s (Ev.disconnect none)).userInfo = none) ∧
    (Part000.step s Ev.restart).userInfo = s.userInfo := by
  refine ⟨⟨rfl, rfl⟩, ⟨?_, ?_⟩, ?_, rfl⟩
  · by_cases h1 : c = some DR_loggedOut
    · simp [Part000.step, h1]
    · by_cases h2 : c = some DR_restartRequired
      · simp [Part000.step, h1, h2, DR_loggedOut, DR_restartRequired]
      · by_cases h3 : c = some DR_connectionClosed
        · simp [Part000.step, h1, h2, h3, DR_loggedOut, DR_restartRequired,
            DR_connectionClosed]
        · simp [Part000.step, h1, h2, h3]
  · by_cases h1 : c = some DR_loggedOut
    · simp [Part000.step, h1]
    · by_cases h2 : c = some DR_restartRequired
      · simp [Part000.step, h1, h2, DR_loggedOut, DR_restartRequired]
      · by_cases h3 : c = some DR_connectionClosed
        · simp [Part000.step, h1, h2, h3, DR_loggedOut, DR_restartRequired,
            DR_connectionClosed]
        · simp [Part000.step, h1, h2, h3]
  · intro hs
    simp [Part000.step, disconnectHandler, hs]

/-- C2 witness: the clearing clauses applied at a concrete connected
state. -/
theorem c2_info_set_and_cleared_witness :
    exConnected.sock = true ∧
    (Part000.step exConnected (Ev.disconnect none)).userInfo = none :=
  ⟨rfl,
    (c2_info_set_and_cleared exConnected none none none).2.2.1 rfl⟩

/-- C2 counterexample: an operator restart while connected leaves the
status `disconnected` with the stale user info still present, violating
the claimed equivalence (`src/unnamed/part_000` lines 232-241 reset
`connectionStatus` and `qrCode` but not `userInfo`). -/
theorem c2_restart_keeps_stale_info :
    (Part000.run Part000.init
        [Ev.startOk, Ev.opened (some "Alice") (some "15551234567:12"),
         Ev.restart]).connectionStatus = "disconnected" ∧
    (Part000.run Part000.init
        [Ev.startOk, Ev.opened (some "Alice") (some "15551234567:12"),
         Ev.restart]).userInfo
      = some { name := "Alice", id := "15551234567" } :=
  ⟨rfl, by decide⟩

/-- C3: in "server (4).js" of `src/unnamed/part_002`, a transient close
(connectionClosed, connectionLost/timedOut, or an unclassifiable undefined
code) increments `reconnectAttempts` and, while the incremented count is
within `MAX_RECONNECT_ATTEMPTS`, schedules a reconnect after
`backoff(count) = 3000 * count`; once the budget is exhausted the next
transient close instead purges the stored session, resets the count to 0
and schedules a fresh forced restart — it never schedules a
`maxAttempts + 1`-th backoff retry. -/
theorem c3_transient_close_budget (s : Part002.St) (c : Option Nat)
    (h : Part002.isTransient c) :
    Part002.closeStep s c =
      (if s.reconnectAttempts + 1 ≤ Part002.MAX_RECONNECT_ATTEMPTS then
        { s with isConnected := false, currentQR := none,
                 reconnectAttempts := s.reconnectAttempts + 1,
                 timers := s.timers ++
                   [(Part002.backoff (s.reconnectAttempts + 1), false)] }
      else
        { s with isConnected := false, currentQR := none,
                 sessionExists := false, reconnectAttempts := 0,
                 timers := s.timers ++ [(5000, true)] }) := by
  rcases h with h | h | h <;> subst h <;>
    simp [Part002.closeStep, DR_loggedOut, DR_badSession,
      DR_connectionClosed, DR_connectionLost, DR_timedOut]

/-- C3 witness: the sixth consecutive transient close (budget already at
5) purges and resets rather than backing off, while the first transient
close from a fresh counter schedules the first backoff. -/
theorem c3_transient_close_budget_witness :
    Part002.isTransient (some 428) ∧
    (Part002.closeStep p2exFull (some 428)).sessionExists = false ∧
    (Part002.closeStep p2exFull (some 428)).reconnectAttempts = 0 ∧
    (Part002.closeStep p2exFull (some 428)).timers = [(5000, true)] ∧
    (Part002.closeStep p2exFresh (some 428)).reconnectAttempts = 1 ∧
    (Part002.closeStep p2exFresh (some 428)).timers = [(3000, false)] := by
  refine ⟨Or.inl rfl, ?_⟩
  rw [c3_transient_close_budget p2exFull (some 428) (Or.inl rfl),
    c3_transient_close_budget p2exFresh (some 428) (Or.inl rfl)]
  decide

/-- C4 (amended): in `src/index.js`, `POST /restart` retires (ends) the
currently tracked socket but never cancels a pending reconnect timer — the
source contains no `clearTimeout` — so each restart strictly increases the
pending-timer count, and each timer that later fires constructs one more
live socket (retiring none) and makes it the tracked one. -/
theorem c4_restart_cancels_no_timer (s : Sessions.St) :
    ((Sessions.step s Sessions.Op.restart).timers = s.timers + 1 ∧
      (Sessions.step s Sessions.Op.restart).live =
        (match s.tracked with
          | some i => s.live.erase i
          | none => s.live)) ∧
    (s.timers ≠ 0 →
      (Sessions.step s Sessions.Op.fire).live.length = s.live.length + 1 ∧
      (Sessions.step s Sessions.Op.fire).tracked = some s.nextId) := by
  refine ⟨⟨rfl, rfl⟩, ?_⟩
  intro h
  simp [Sessions.step, h]

/-- C4 witness: the clauses applied at a concrete state with one pending
timer and one tracked live socket. -/
theorem c4_restart_cancels_no_timer_witness :
    sessEx.timers ≠ 0 ∧
    (Sessions.step sessEx Sessions.Op.restart).timers = sessEx.timers + 1 ∧
    (Sessions.step sessEx Sessions.Op.fire).live.length
      = sessEx.live.length + 1 :=
  ⟨by decide, (c4_restart_cancels_no_timer sessEx).1.1,
    ((c4_restart_cancels_no_timer sessEx).2 (by decide)).1⟩

/-- C4 counterexample: two restart requests in quick succession schedule
two uncancelled timers; after both fire, two socket instances are live
simultaneously — not the claimed "exactly one active session, never
two". -/
theorem c4_two_restarts_two_live_sockets :
    (Sessions.run Sessions.init
        [Sessions.Op.restart, Sessions.Op.restart,
         Sessions.Op.fire, Sessions.Op.fire]).live.length = 2 ∧
    (Sessions.run Sessions.init
        [Sessions.Op.restart, Sessions.Op.restart,
         Sessions.Op.fire, Sessions.Op.fire]).tracked = some 1 :=
  ⟨rfl, rfl⟩

/-- C5 (amended): on a close with cause `loggedOut`, `src/unnamed/part_000`
purges the stored credentials and schedules a fresh `connectWhatsApp` after
a fixed 2s delay; `src/index.js` also purges, but — because
`shouldReconnect` is false precisely for `loggedOut` — schedules no restart
at all, staying down until an operator restart. -/
theorem c5_loggedout_purge_and_schedule (s : BSt) :
    ((Part000.step s (Ev.closed (some DR_loggedOut))).creds = false ∧
      (Part000.step s (Ev.closed (some DR_loggedOut))).scheduled
        = s.scheduled ++ [2000]) ∧
    ((IndexJs.step s (Ev.closed (some DR_loggedOut))).creds = false ∧
      (IndexJs.step s (Ev.closed (some DR_loggedOut))).scheduled
        = s.scheduled) := by
  refine ⟨⟨?_, ?_⟩, ?_, ?_⟩ <;> simp [Part000.step, IndexJs.step]

/-- C5 counterexample: in `src/index.js` a `loggedOut` close from the
connected state purges the credentials but schedules no fresh start, so
no new pairing artifact can ever be produced without operator action. -/
theorem c5_indexjs_no_restart_after_logout :
    exConnected.creds = true ∧
    (IndexJs.step exConnected (Ev.closed (some DR_loggedOut))).creds
      = false ∧
    (IndexJs.step exConnected (Ev.closed (some DR_loggedOut))).scheduled
      = [] :=
  ⟨rfl, rfl, rfl⟩

/-- C6 (amended): in `src/index.js`, `POST /disconnect` returns
`success: true` when no socket is tracked (idempotent no-op) and when the
logout succeeds (then it clears the local state); but when `sock.logout()`
rejects, the error is surfaced as an HTTP 500 body and the local state is
left entirely unchanged — it is not forced to a logged-out state. -/
theorem c6_disconnect_cases (s : BSt) (m : String) :
    (s.sock = false →
      disconnectHandler s (some m) =
        ({ httpStatus := 200, success := true,
           message := some "Already disconnected", errorMsg := none }, s)) ∧
    (s.sock = true →
      ((disconnectHandler s none).1.success = true ∧
        (disconnectHandler s none).2.connectionStatus = "disconnected" ∧
        (disconnectHandler s none).2.qrCode = none ∧
        (disconnectHandler s none).2.userInfo = none) ∧
      ((disconnectHandler s (some m)).1.httpStatus = 500 ∧
        (disconnectHandler s (some m)).1.success = false ∧
        (disconnectHandler s (some m)).1.errorMsg = some m ∧
        (disconnectHandler s (some m)).2 = s)) := by
  constructor
  · intro hs
    simp [disconnectHandler, hs]
  · intro hs
    refine ⟨⟨?_, ?_, ?_, ?_⟩, ?_, ?_, ?_, ?_⟩ <;> simp [disconnectHandler, hs]

/-- C6 witness: the no-socket and failing-logout clauses at concrete
states. -/
theorem c6_disconnect_cases_witness :
    (exNoSock.sock = false ∧
      disconnectHandler exNoSock (some "boom") =
        ({ httpStatus := 200, success := true,
           message := some "Already disconnected", errorMsg := none },
         exNoSock)) ∧
    (exConnected.sock = true ∧
      (disconnectHandler exConnected (some "boom")).1.httpStatus = 500) :=
  ⟨⟨rfl, (c6_disconnect_cases exNoSock "boom").1 rfl⟩,
    ⟨rfl, ((c6_disconnect_cases exConnected "boom").2 rfl).2.1⟩⟩

/-- C6 counterexample: a failing logout on an active session is not
swallowed — the route answers HTTP 500 with the error and without
`success: true`, and the local state (still `connected`, user info still
present) is not forced to a logged-out state. -/
theorem c6_logout_failure_surfaces :
    (disconnectHandler exConnected (some "boom")).1.httpStatus = 500 ∧
    (disconnectHandler exConnected (some "boom")).1.success = false ∧
    (disconnectHandler exConnected (some "boom")).1.errorMsg = some "boom" ∧
    (disconnectHandler exConnected (some "boom")).2 = exConnected :=
  ⟨rfl, rfl, rfl, rfl⟩

/-- C7 (amended): in `src/index.js`, a later pairing-ready event whose
rendering succeeds replaces the stored artifact unconditionally, whatever
the previous artifact was; but when the rendering of the second code fails
the previous artifact is retained and stays observable. -/
theorem c7_supersession_on_success (s : BSt) (a b : String) (oka : Bool) :
    (IndexJs.step (IndexJs.step s (Ev.qr a oka)) (Ev.qr b true)).qrCode
      = some (render b) ∧
    (IndexJs.step s (Ev.qr b false)).qrCode = s.qrCode := by
  constructor
  · cases oka <;> simp [IndexJs.step]
  · simp [IndexJs.step]

/-- C7 counterexample: after `pairing-ready("ABC")` rendered successfully
and `pairing-ready("XYZ")` whose rendering failed, reading the artifact
still returns the one derived from `"ABC"` — the first code remains
observable, so the second event did not supersede it. -/
theorem c7_failed_render_keeps_old_artifact :
    (IndexJs.run IndexJs.init
        [Ev.startOk, Ev.qr "ABC" true, Ev.qr "XYZ" false]).qrCode
      = some (render "ABC") ∧
    render "ABC" ≠ render "XYZ" :=
  ⟨rfl, by decide⟩

/-- C8 (amended): a group-listing call outside the connected state fails
immediately with a `Not connected` error and performs no socket call in
both `src/index.js` (which echoes the current state in the `status` key)
and the `src/server.js` Baileys document (whose 503 body has no state
field at all). -/
theorem c8_chats_fail_fast (sI : BSt) (sS : ServerJs.St)
    (g : List IndexJs.Group) (g2 : List ServerJs.Group)
    (hI : sI.connectionStatus ≠ "connected") (hS : sS.isConnected = false) :
    IndexJs.chatsHandler sI g =
      { httpStatus := 503, errorMsg := some "Not connected",
        stateEcho := some sI.connectionStatus, count := none, chats := none,
        sockCalled := false } ∧
    ServerJs.chatsHandler sS g2 =
      { httpStatus := 503, errorMsg := some "Not connected", chats := none,
        sockCalled := false } := by
  constructor
  · simp [IndexJs.chatsHandler, hI]
  · simp [ServerJs.chatsHandler, hS]

/-- C8 witness: the fail-fast clauses at concrete disconnected states. -/
theorem c8_chats_fail_fast_witness :
    (exNoSock.connectionStatus ≠ "connected" ∧ srvIdle.isConnected = false) ∧
    (IndexJs.chatsHandler exNoSock [] =
      { httpStatus := 503, errorMsg := some "Not connected",
        stateEcho := some exNoSock.connectionStatus, count := none,
        chats := none, sockCalled := false } ∧
    ServerJs.chatsHandler srvIdle [] =
      { httpStatus := 503, errorMsg := some "Not connected", chats := none,
        sockCalled := false }) :=
  ⟨⟨by decide, rfl⟩, c8_chats_fail_fast exNoSock srvIdle [] [] (by decide) rfl⟩

/-- C8 counterexample: in the `src/server.js` Baileys document the
not-connected error is one constant body — two observably different
disconnected states (a QR on offer and a tracked socket, versus neither)
produce identical responses, so the error does not carry the current
state as the claim requires. -/
theorem c8_error_carries_no_state :
    ServerJs.chatsHandler srvScanning [] = ServerJs.chatsHandler srvIdle [] ∧
    srvScanning.currentQR ≠ srvIdle.currentQR ∧
    srvScanning.sock ≠ srvIdle.sock ∧
    (ServerJs.chatsHandler srvScanning []).httpStatus = 503 :=
  ⟨rfl, by decide, by decide, rfl⟩

/-- C9 (amended): a close whose cause is neither loggedOut nor badSession
schedules a reconnect in `src/index.js` (5s for every non-loggedOut
cause) and in `src/unnamed/part_002` "server (4).js" (exactly one timer,
backoff or fresh restart, for every non-loggedOut, non-badSession cause);
but `src/unnamed/part_000` schedules a reconnect only for causes other
than loggedOut, restartRequired and connectionClosed — a plain
`connectionClosed` close is left with no reconnect at all there. -/
theorem c9_reconnect_for_nonfatal (sA sB : BSt) (sP : Part002.St)
    (c1 c2 c3 : Option Nat)
    (h1 : c1 ≠ some DR_loggedOut)
    (h2a : c2 ≠ some DR_loggedOut) (h2b : c2 ≠ some DR_restartRequired)
    (h2c : c2 ≠ some DR_connectionClosed)
    (h3a : c3 ≠ some DR_loggedOut) (h3b : c3 ≠ some DR_badSession) :
    (IndexJs.step sA (Ev.closed c1)).scheduled = sA.scheduled ++ [5000] ∧
    (Part000.step sB (Ev.closed c2)).scheduled = sB.scheduled ++ [3000] ∧
    (Part002.closeStep sP c3).timers.length = sP.timers.length + 1 := by
  refine ⟨?_, ?_, ?_⟩
  · simp [IndexJs.step, h1]
  · simp [Part000.step, h2a, h2b, h2c]
  · simp only [Part002.closeStep]
    split_ifs <;> simp_all

/-- C9 witness: the scheduling clauses at concrete causes (badSession for
`src/index.js`, connectionLost for `src/unnamed/part_000`, an undefined
status code for `src/unnamed/part_002`). -/
theorem c9_reconnect_for_nonfatal_witness :
    (some DR_badSession ≠ some DR_loggedOut ∧
      some DR_connectionLost ≠ some DR_loggedOut ∧
      some DR_connectionLost ≠ some DR_restartRequired ∧
      some DR_connectionLost ≠ some DR_connectionClosed ∧
      (none : Option Nat) ≠ some DR_loggedOut ∧
      (none : Option Nat) ≠ some DR_badSession) ∧
    ((IndexJs.step exConnected (Ev.closed (some DR_badSession))).scheduled
        = exConnected.scheduled ++ [5000] ∧
      (Part000.step exConnected
          (Ev.closed (some DR_connectionLost))).scheduled
        = exConnected.scheduled ++ [3000] ∧
      (Part002.closeStep p2exFresh none).timers.length
        = p2exFresh.timers.length + 1) :=
  ⟨⟨by decide, by decide, by decide, by decide, by decide, by decide⟩,
    c9_reconnect_for_nonfatal exConnected exConnected p2exFresh
      (some DR_badSession) (some DR_connectionLost) none
      (by decide) (by decide) (by decide) (by decide) (by decide) (by decide)⟩

/-- C9 counterexample: in `src/unnamed/part_000` a close with cause
`connectionClosed` (428) — which is neither loggedOut (401) nor badSession
(500) — schedules no reconnect whatsoever: the schedule log is unchanged
and empty, so this cause is treated as immediately fatal there. -/
theorem c9_connection_closed_is_fatal_in_part000 :
    (Part000.step exConnected
        (Ev.closed (some DR_connectionClosed))).scheduled = [] ∧
    exConnected.scheduled = [] ∧
    some DR_connectionClosed ≠ some DR_loggedOut ∧
    some DR_connectionClosed ≠ some DR_badSession :=
  ⟨rfl, rfl, by decide, by decide⟩

/-- C10: in the `src/server.js` Baileys document (and the identical
handler of `src/unnamed/part_002`), a successful `GET /chats` in the
connected state returns exactly the first 50 fetched groups, formatted —
at most 50 entries, the remainder silently omitted. -/
theorem c10_chats_capped_at_50 (s : ServerJs.St)
    (groups : List ServerJs.Group)
    (h1 : s.isConnected = true) (h2 : s.sock = true) :
    (ServerJs.chatsHandler s groups).httpStatus = 200 ∧
    (ServerJs.chatsHandler s groups).chats
      = some ((groups.take 50).map ServerJs.formatChat) ∧
    ((groups.take 50).map ServerJs.formatChat).length
      = min 50 groups.length ∧
    min 50 groups.length ≤ 50 := by
  refine ⟨?_, ?_, ?_, Nat.min_le_left _ _⟩
  · simp [ServerJs.chatsHandler, h1, h2]
  · simp [ServerJs.chatsHandler, h1, h2]
  · simp [List.length_map, List.length_take]

/-- C10 witness: with 51 fetched groups the connected handler returns
exactly 50 entries. -/
theorem c10_chats_capped_at_50_witness :
    (srvConn.isConnected = true ∧ srvConn.sock = true) ∧
    (ServerJs.chatsHandler srvConn (List.replicate 51 gEx)).chats
      = some (((List.replicate 51 gEx).take 50).map ServerJs.formatChat) ∧
    (((List.replicate 51 gEx).take 50).map ServerJs.formatChat).length
      = 50 :=
  ⟨⟨rfl, rfl⟩,
    (c10_chats_capped_at_50 srvConn (List.replicate 51 gEx) rfl rfl).2.1,
    by decide⟩

end FW
